import Mathlib

/-!
Shallow embedding of the iris-devtester / iris-devtools repository:
the password-reset verification retry loop, the fixture snapshot
(manifest / checksum / loader) subsystem, resource-threshold validation,
and the connection caches.  Definitions are transliterated from the
Python sources; components whose source file is absent from the tree
(only callers and tests remain) are modelled from the specification and
say so in their doc comment.
-/

namespace IrisDev

/-- Modelled from the spec: the configuration record `VerificationConfig`
(`iris_devtester/utils/password_verification.py` is absent from the source
tree; field names are fixed by its callers in `password_reset.py` and by
`tests/integration/test_password_reset_timing.py`: `max_retries`,
`timeout_ms`, `initial_backoff_ms`, `exponential_backoff`). -/
structure VerificationConfig where
  max_retries : Nat
  timeout_ms : Nat
  initial_backoff_ms : Nat
  exponential_backoff : Bool

/-- Modelled from the spec: `VerificationConfig.calculate_backoff_ms`
("sleep for an exponentially increasing backoff (configurable initial
delay, configurable growth, optional disable-backoff mode for
deterministic tests)").  The spec's concrete scenario -- initial 100 ms,
exponential backoff, sleeps of 100 ms then 200 ms for retry indices 0 and
1 -- fixes doubling per retry index. -/
def VerificationConfig.calculate_backoff_ms
    (cfg : VerificationConfig) (retryIndex : Nat) : Nat :=
  if cfg.exponential_backoff then cfg.initial_backoff_ms * 2 ^ retryIndex
  else cfg.initial_backoff_ms

/-- Modelled from the spec: the per-attempt "Verification Result" data
model ("success flag, error classification, whether the error is
retryable, attempt number, elapsed time"); produced by
`verify_password_via_connection` (absent from the source tree), consumed
by the retry loop in `reset_password`. -/
structure VerificationResult where
  success : Bool
  error_type : String
  error_message : String
  is_retryable : Bool

/-- Modelled from the spec: the "Reset Result" record
(`PasswordResetResult`, absent from the source tree); field names are
fixed by `reset_password` call sites and the integration tests:
`success`, `message`, `verification_attempts`, `elapsed_seconds`,
`error_type`, `container_name`, `username`. -/
structure PasswordResetResult where
  success : Bool
  message : String
  verification_attempts : Nat := 0
  elapsed_seconds : Rat := 0
  error_type : Option String := none
  container_name : String := ""
  username : String := ""

/-- A Python value yielded by iterating a result object: used to state the
two-element positional destructuring contract. -/
inductive PyVal where
  | b (x : Bool)
  | s (x : String)
deriving DecidableEq

/-- Modelled from the spec: `PasswordResetResult` "behaves as a record
type that also supports positional destructuring into exactly its first
two logical fields", i.e. iterating the object yields exactly
`(success, message)`. -/
def PasswordResetResult.iterElems (r : PasswordResetResult) : List PyVal :=
  [PyVal.b r.success, PyVal.s r.message]

/-- Elapsed milliseconds rendered as the `elapsed_seconds` float of the
Python result (modelled exactly as the rational ms/1000). -/
def msToSeconds (ms : Nat) : Rat := (ms : Rat) / 1000

/-- The observable environment of one run of the verification retry loop
in `reset_password` (`password_reset.py` lines 196-268): `clock n` is the
elapsed wall-clock time in milliseconds measured at the top of loop
iteration `n` (Python: `time.time() - start_time`), and `probe n` is the
outcome of the n-th call to `verify_password_via_connection`. -/
structure VerifyEnv where
  clock : Nat → Nat
  probe : Nat → VerificationResult

/-- Transliteration of the verification retry loop body of
`reset_password` (`password_reset.py` lines 196-268), entered at
iteration `attempt` with the loop state carried explicitly
(`last_error_type`, `last_error_message`, and the list of backoff sleeps
performed so far, in ms).  Per iteration, in source order:
1. `elapsed >= timeout_ms / 1000` check, returning a "timeout" failure
   with `verification_attempts = attempt - 1`;
2. the verification probe; on success an immediate success return with
   `verification_attempts = attempt`;
3. the `is_retryable` check, returning a non-retryable failure with the
   probe's classification;
4. `time.sleep(calculate_backoff_ms(attempt - 1))` only when
   `attempt < max_retries`, then the next iteration.
Falling off the loop (`attempt > max_retries`) is the "all retries
exhausted" return carrying the last error classification. -/
def resetVerifyFrom (cfg : VerificationConfig) (env : VerifyEnv)
    (attempt : Nat) (last_error_type last_error_message : String)
    (sleeps : List Nat) : PasswordResetResult × List Nat :=
  if h : attempt ≤ cfg.max_retries then
    let elapsed := env.clock attempt
    if cfg.timeout_ms ≤ elapsed then
      ({ success := false
         message := "Password verification timed out (NFR-004)"
         verification_attempts := attempt - 1
         elapsed_seconds := msToSeconds elapsed
         error_type := some "timeout" }, sleeps)
    else
      let vr := env.probe attempt
      if vr.success then
        ({ success := true
           message := "Password reset successful"
           verification_attempts := attempt
           elapsed_seconds := msToSeconds elapsed }, sleeps)
      else if !vr.is_retryable then
        ({ success := false
           message := "Password verification failed (non-retryable): " ++ vr.error_message
           verification_attempts := attempt
           elapsed_seconds := msToSeconds elapsed
           error_type := some vr.error_type }, sleeps)
      else
        let sleeps' := if attempt < cfg.max_retries
          then sleeps ++ [cfg.calculate_backoff_ms (attempt - 1)]
          else sleeps
        resetVerifyFrom cfg env (attempt + 1) vr.error_type vr.error_message sleeps'
  else
    ({ success := false
       message := "Password verification failed after max retries: " ++ last_error_message
       verification_attempts := cfg.max_retries
       elapsed_seconds := msToSeconds (env.clock attempt)
       error_type := some last_error_type }, sleeps)
termination_by cfg.max_retries + 1 - attempt
decreasing_by omega

/-- The whole verification retry loop of `reset_password`, started as the
Python source does: `for attempt in range(1, max_retries + 1)` with
`last_error_type = "unknown"`, `last_error_message = ""` and no sleeps
performed yet. -/
def runVerification (cfg : VerificationConfig) (env : VerifyEnv) :
    PasswordResetResult × List Nat :=
  resetVerifyFrom cfg env 1 "unknown" "" []

/-- The catch-all exception dispatch at the tail of `reset_password`
(`password_reset.py`): the three `except` arms (`subprocess.TimeoutExpired`,
`FileNotFoundError`, `Exception`) together catch every exception the body
can raise and convert it into a structured `PasswordResetResult`; nothing
re-raises, so the dispatch is a total function of the raised exception. -/
inductive ResetException where
  | timeoutExpired
  | fileNotFound
  | other (msg : String)

/-- Transliteration of the three `except` handlers of `reset_password`:
a `subprocess.TimeoutExpired` becomes a failure classified `"timeout"`,
a `FileNotFoundError` (missing `docker` executable) becomes a failure
classified `"unknown"` whose message names Docker as missing, and any
other exception becomes a failure classified `"unknown"` carrying the
exception text. -/
def handleResetException (container_name username new_password : String)
    (timeout_s : Nat) : ResetException → PasswordResetResult
  | .timeoutExpired =>
      { success := false
        message := "Password reset timed out after " ++ toString timeout_s ++
          " seconds. What went wrong: Docker command did not complete in time. " ++
          "How to fix it: check container health with docker logs " ++
          container_name ++ ", or retry with a longer timeout"
        error_type := some "timeout"
        container_name := container_name
        username := username }
  | .fileNotFound =>
      { success := false
        message := "Docker command not found. What went wrong: Docker is not " ++
          "installed or not in PATH. How to fix it: install Docker, then verify " ++
          "the installation with docker --version"
        error_type := some "unknown"
        container_name := container_name
        username := username }
  | .other msg =>
      { success := false
        message := "Password reset failed: " ++ msg ++
          ". How to fix it manually: docker exec -it " ++ container_name ++
          " bash, open an iris session, and set the password to " ++ new_password
        error_type := some "unknown"
        container_name := container_name
        username := username }

/-- Helper for C1: entered at iteration `a` with `j` retryable failures
ahead and a success at attempt `a + j`, and the clock below the timeout
budget at every reached iteration top, the loop returns success with
attempt count `a + j` and performs exactly `j` further backoff sleeps
(one after each failed attempt, none after the success). -/
theorem resetVerifyFrom_succeeds (cfg : VerificationConfig) (env : VerifyEnv) :
    ∀ (j a : Nat) (lastET lastEM : String) (sleeps : List Nat),
      1 ≤ a → a + j ≤ cfg.max_retries →
      (∀ i, a ≤ i → i < a + j →
        (env.probe i).success = false ∧ (env.probe i).is_retryable = true) →
      (env.probe (a + j)).success = true →
      (∀ i, a ≤ i → i ≤ a + j → env.clock i < cfg.timeout_ms) →
      (resetVerifyFrom cfg env a lastET lastEM sleeps).1.success = true ∧
      (resetVerifyFrom cfg env a lastET lastEM sleeps).1.verification_attempts = a + j ∧
      (resetVerifyFrom cfg env a lastET lastEM sleeps).2.length = sleeps.length + j := by
  intro j
  induction j with
  | zero =>
    intro a lastET lastEM sleeps ha hle hfail hsucc hclock
    have hA : a ≤ cfg.max_retries := by omega
    have hclk : env.clock a < cfg.timeout_ms := hclock a le_rfl (by omega)
    have hs : (env.probe a).success = true := by simpa using hsucc
    unfold resetVerifyFrom
    simp [hA, hclk.not_le, hs]
  | succ j ih =>
    intro a lastET lastEM sleeps ha hle hfail hsucc hclock
    have hA : a ≤ cfg.max_retries := by omega
    have hclk : env.clock a < cfg.timeout_ms := hclock a le_rfl (by omega)
    have hfa := hfail a le_rfl (by omega)
    have hlt : a < cfg.max_retries := by omega
    have heq : a + (j + 1) = (a + 1) + j := by omega
    have hrec := ih (a + 1) (env.probe a).error_type (env.probe a).error_message
      (sleeps ++ [cfg.calculate_backoff_ms (a - 1)])
      (by omega) (by omega)
      (fun i h1 h2 => hfail i (by omega) (by omega))
      (by rw [heq] at hsucc; exact hsucc)
      (fun i h1 h2 => hclock i (by omega) (by omega))
    unfold resetVerifyFrom
    simp only [hA, dif_pos, hclk.not_le, if_neg, hfa.1, hfa.2, Bool.not_true,
      Bool.false_eq_true, if_false, List.length_append, List.length_cons,
      List.length_nil, hlt, if_pos, not_false_eq_true]
    refine ⟨hrec.1, ?_, ?_⟩
    · rw [heq]; exact hrec.2.1
    · have := hrec.2.2
      simp only [List.length_append, List.length_cons, List.length_nil] at this
      omega

/-- C1: for every probe sequence that fails `k` times with retryable
errors and then succeeds, and every configuration with
`max_retries > k` (with the wall clock below the timeout budget at each
reached iteration top), the verification retry loop of `reset_password`
returns a success result with `verification_attempts` exactly `k + 1`
and performs exactly `k` backoff sleeps -- in particular, no backoff
sleep after the final (successful) attempt. -/
theorem c1_retry_loop_success (cfg : VerificationConfig) (env : VerifyEnv) (k : Nat)
    (hk : k < cfg.max_retries)
    (hfail : ∀ i, 1 ≤ i → i ≤ k →
      (env.probe i).success = false ∧ (env.probe i).is_retryable = true)
    (hsucc : (env.probe (k + 1)).success = true)
    (hclock : ∀ i, 1 ≤ i → i ≤ k + 1 → env.clock i < cfg.timeout_ms) :
    (runVerification cfg env).1.success = true ∧
    (runVerification cfg env).1.verification_attempts = k + 1 ∧
    (runVerification cfg env).2.length = k := by
  have h := resetVerifyFrom_succeeds cfg env k 1 "unknown" "" [] le_rfl (by omega)
    (fun i h1 h2 => hfail i h1 (by omega))
    (by rw [show 1 + k = k + 1 from by omega]; exact hsucc)
    (fun i h1 h2 => hclock i h1 (by omega))
  unfold runVerification
  refine ⟨h.1, ?_, ?_⟩
  · rw [show k + 1 = 1 + k from by omega]; exact h.2.1
  · have := h.2.2
    simpa using this

/-- Concrete configuration used by the retry-loop witnesses: the spec's
scenario (`initial_backoff_ms = 100`, exponential backoff,
`max_retries = 5`) with the NFR-004 ten-second budget. -/
def cfgRetry : VerificationConfig :=
  { max_retries := 5, timeout_ms := 10000, initial_backoff_ms := 100,
    exponential_backoff := true }

/-- Concrete environment for the C1 witness: attempts 1 and 2 fail with a
retryable access-denied error, attempt 3 succeeds; the clock advances
100 ms per iteration. -/
def envC1 : VerifyEnv :=
  { clock := fun n => 100 * n
    probe := fun n =>
      if n < 3 then
        { success := false, error_type := "access_denied",
          error_message := "Access Denied", is_retryable := true }
      else
        { success := true, error_type := "", error_message := "",
          is_retryable := true } }

/-- Witness for C1 at the spec's concrete scenario: two retryable
failures then success gives a success result, three attempts, and two
backoff sleeps. -/
theorem c1_retry_loop_success_witness :
    (runVerification cfgRetry envC1).1.success = true ∧
    (runVerification cfgRetry envC1).1.verification_attempts = 3 ∧
    (runVerification cfgRetry envC1).2.length = 2 :=
  c1_retry_loop_success cfgRetry envC1 2 (by decide)
    (fun i _h1 _h2 => by interval_cases i <;> exact ⟨rfl, rfl⟩)
    rfl
    (fun i _ h2 => by
      simp only [envC1, cfgRetry]
      omega)

/-- C2: if the first verification probe fails with an error classified as
non-retryable (and the clock has not yet exhausted the budget), the
retry loop of `reset_password` returns a failure result after exactly
one attempt, carrying that probe's error classification, with no backoff
sleep -- regardless of `max_retries`. -/
theorem c2_nonretryable_fail_fast (cfg : VerificationConfig) (env : VerifyEnv)
    (h1 : 1 ≤ cfg.max_retries)
    (ht : env.clock 1 < cfg.timeout_ms)
    (hf : (env.probe 1).success = false)
    (hnr : (env.probe 1).is_retryable = false) :
    (runVerification cfg env).1.success = false ∧
    (runVerification cfg env).1.verification_attempts = 1 ∧
    (runVerification cfg env).1.error_type = some (env.probe 1).error_type ∧
    (runVerification cfg env).2 = [] := by
  unfold runVerification resetVerifyFrom
  simp [h1, ht.not_le, hf, hnr]

/-- Concrete environment for the C2 witness: the first probe fails with a
non-retryable classification. -/
def envC2 : VerifyEnv :=
  { clock := fun n => 100 * n
    probe := fun _ =>
      { success := false, error_type := "access_denied",
        error_message := "Malformed request", is_retryable := false } }

/-- Witness for C2: a non-retryable first failure under `max_retries = 5`
yields failure after exactly one attempt and no sleeps. -/
theorem c2_nonretryable_fail_fast_witness :
    (runVerification cfgRetry envC2).1.success = false ∧
    (runVerification cfgRetry envC2).1.verification_attempts = 1 ∧
    (runVerification cfgRetry envC2).1.error_type = some (envC2.probe 1).error_type ∧
    (runVerification cfgRetry envC2).2 = [] :=
  c2_nonretryable_fail_fast cfgRetry envC2 (by decide) (by decide) rfl rfl

/-- C3: whenever the retry loop of `reset_password` reaches the top of an
iteration `j` (any loop state) with the elapsed wall-clock time at or
beyond the configured `timeout_ms` budget, it returns -- the embedding
is a total function, so nothing is raised -- a failure result classified
`"timeout"` whose `verification_attempts` is the number of attempts
completed so far, namely `j - 1` (possibly zero). -/
theorem c3_timeout_abort (cfg : VerificationConfig) (env : VerifyEnv)
    (j : Nat) (lastET lastEM : String) (sleeps : List Nat)
    (_h1 : 1 ≤ j) (hj : j ≤ cfg.max_retries)
    (ht : cfg.timeout_ms ≤ env.clock j) :
    (resetVerifyFrom cfg env j lastET lastEM sleeps).1.success = false ∧
    (resetVerifyFrom cfg env j lastET lastEM sleeps).1.error_type = some "timeout" ∧
    (resetVerifyFrom cfg env j lastET lastEM sleeps).1.verification_attempts = j - 1 := by
  unfold resetVerifyFrom
  simp [hj, ht]

/-- Concrete environment for the C3 witness: the clock is already at the
ten-second budget at the top of the first iteration. -/
def envC3 : VerifyEnv :=
  { clock := fun _ => 10000
    probe := fun _ =>
      { success := true, error_type := "", error_message := "",
        is_retryable := true } }

/-- Witness for C3 at the first iteration: the loop aborts with a
timeout-classified failure and zero attempts completed. -/
theorem c3_timeout_abort_witness :
    (resetVerifyFrom cfgRetry envC3 1 "unknown" "" []).1.success = false ∧
    (resetVerifyFrom cfgRetry envC3 1 "unknown" "" []).1.error_type = some "timeout" ∧
    (resetVerifyFrom cfgRetry envC3 1 "unknown" "" []).1.verification_attempts = 0 :=
  c3_timeout_abort cfgRetry envC3 1 "unknown" "" [] le_rfl (by decide) (by decide)

/-- C4: every `PasswordResetResult` -- in particular every result
`reset_password` returns, whether from the verification retry loop or
from the exception handlers -- positionally destructures into exactly the
two-element pair of its `success` flag and `message` string, while
`verification_attempts`, `elapsed_seconds` and `error_type` remain
addressable by name on the same record. -/
theorem c4_tuple_destructuring (cfg : VerificationConfig) (env : VerifyEnv)
    (cn un np : String) (t : Nat) (e : ResetException) :
    ((runVerification cfg env).1.iterElems =
      [PyVal.b (runVerification cfg env).1.success,
       PyVal.s (runVerification cfg env).1.message] ∧
     (runVerification cfg env).1.iterElems.length = 2) ∧
    ((handleResetException cn un np t e).iterElems =
      [PyVal.b (handleResetException cn un np t e).success,
       PyVal.s (handleResetException cn un np t e).message] ∧
     (handleResetException cn un np t e).iterElems.length = 2) :=
  ⟨⟨rfl, rfl⟩, ⟨rfl, rfl⟩⟩

/-- Truncation to a 32-bit word, written as the explicit remainder by
2^32 (4294967296). -/
def mod32 (x : Nat) : Nat := x % 4294967296

/-- 32-bit right rotation (inputs are 32-bit words). -/
def rotr32 (n x : Nat) : Nat := mod32 ((x >>> n) ||| (x <<< (32 - n)))

/-- SHA-256 choice function Ch(x, y, z). -/
def shaCh (x y z : Nat) : Nat := (x &&& y) ^^^ ((x ^^^ 4294967295) &&& z)

/-- SHA-256 majority function Maj(x, y, z). -/
def shaMaj (x y z : Nat) : Nat := (x &&& y) ^^^ (x &&& z) ^^^ (y &&& z)

/-- SHA-256 big Sigma0. -/
def shaBigSigma0 (x : Nat) : Nat := rotr32 2 x ^^^ rotr32 13 x ^^^ rotr32 22 x

/-- SHA-256 big Sigma1. -/
def shaBigSigma1 (x : Nat) : Nat := rotr32 6 x ^^^ rotr32 11 x ^^^ rotr32 25 x

/-- SHA-256 small sigma0. -/
def shaSmallSigma0 (x : Nat) : Nat := rotr32 7 x ^^^ rotr32 18 x ^^^ (x >>> 3)

/-- SHA-256 small sigma1. -/
def shaSmallSigma1 (x : Nat) : Nat := rotr32 17 x ^^^ rotr32 19 x ^^^ (x >>> 10)

/-- The 64 SHA-256 round constants (FIPS 180-4). -/
def shaK : List Nat :=
  [1116352408, 1899447441, 3049323471, 3921009573, 961987163,
   1508970993, 2453635748, 2870763221, 3624381080, 310598401,
   607225278, 1426881987, 1925078388, 2162078206, 2614888103,
   3248222580, 3835390401, 4022224774, 264347078, 604807628,
   770255983, 1249150122, 1555081692, 1996064986, 2554220882,
   2821834349, 2952996808, 3210313671, 3336571891, 3584528711,
   113926993, 338241895, 666307205, 773529912, 1294757372,
   1396182291, 1695183700, 1986661051, 2177026350, 2456956037,
   2730485921, 2820302411, 3259730800, 3345764771, 3516065817,
   3600352804, 4094571909, 275423344, 430227734, 506948616,
   659060556, 883997877, 958139571, 1322822218, 1537002063,
   1747873779, 1955562222, 2024104815, 2227730452, 2361852424,
   2428436474, 2756734187, 3204031479, 3329325298]

/-- The SHA-256 initial hash value (FIPS 180-4). -/
def shaH0 : List Nat :=
  [1779033703, 3144134277, 1013904242, 2773480762,
   1359893119, 2600822924, 528734635, 1541459225]

/-- Big-endian byte rendering of `v` on `k` bytes. -/
def beBytes : Nat → Nat → List Nat
  | 0, _ => []
  | k + 1, v => beBytes k (v / 256) ++ [v % 256]

/-- SHA-256 message padding: append the 0x80 byte, zeros up to 56 mod 64,
then the 8-byte big-endian bit length. -/
def sha256Pad (msg : List Nat) : List Nat :=
  msg ++ [128] ++ List.replicate ((56 + 64 - ((msg.length + 1) % 64)) % 64) 0 ++
    beBytes 8 (msg.length * 8)

/-- Group bytes into big-endian 32-bit words. -/
def bytesToWords : List Nat → List Nat
  | a :: b :: c :: d :: rest =>
      (((a * 256 + b) * 256 + c) * 256 + d) :: bytesToWords rest
  | _ => []

/-- Extend the 16-word message schedule to 64 words (`fuel = 48`). -/
def extendW : Nat → List Nat → List Nat
  | 0, w => w
  | fuel + 1, w =>
    let t := w.length
    let next := mod32 (shaSmallSigma1 (w.getD (t - 2) 0) + w.getD (t - 7) 0 +
      shaSmallSigma0 (w.getD (t - 15) 0) + w.getD (t - 16) 0)
    extendW fuel (w ++ [next])

/-- One SHA-256 round: the state is the eight working words a..h, the
argument pairs a round constant with a schedule word. -/
def shaRound (st : List Nat) (kw : Nat × Nat) : List Nat :=
  let a := st.getD 0 0
  let b := st.getD 1 0
  let c := st.getD 2 0
  let d := st.getD 3 0
  let e := st.getD 4 0
  let f := st.getD 5 0
  let g := st.getD 6 0
  let h := st.getD 7 0
  let t1 := mod32 (h + shaBigSigma1 e + shaCh e f g + kw.1 + kw.2)
  let t2 := mod32 (shaBigSigma0 a + shaMaj a b c)
  [mod32 (t1 + t2), a, b, c, mod32 (d + t1), e, f, g]

/-- Compress one 64-byte block into the running hash. -/
def compressBlock (h : List Nat) (block : List Nat) : List Nat :=
  let w := extendW 48 (bytesToWords block)
  let st := (shaK.zip w).foldl shaRound h
  (h.zip st).map (fun p => mod32 (p.1 + p.2))

/-- Fold the compression over the padded message, 64 bytes at a time
(`fuel` is the block count). -/
def sha256Go : Nat → List Nat → List Nat → List Nat
  | 0, h, _ => h
  | fuel + 1, h, rest => sha256Go fuel (compressBlock h (rest.take 64)) (rest.drop 64)

/-- SHA-256 digest (32 bytes) of a byte string. -/
def sha256 (msg : List Nat) : List Nat :=
  let padded := sha256Pad msg
  ((sha256Go (padded.length / 64) shaH0 padded).map (beBytes 4)).flatten

/-- Lower-case hex digit. -/
def hexChar (n : Nat) : Char :=
  if n < 10 then Char.ofNat (48 + n) else Char.ofNat (87 + n)

/-- Two lower-case hex digits of a byte. -/
def byteHex (b : Nat) : String := String.mk [hexChar (b / 16), hexChar (b % 16)]

/-- Lower-case hex rendering of a byte string. -/
def bytesHex (bs : List Nat) : String := String.join (bs.map byteHex)

/-- Modelled from the spec: `FixtureValidator.calculate_sha256`
(`iris_devtools/fixtures/validator.py` is absent from the source tree;
`creator.calculate_checksum` delegates to it and the spec fixes the
interchange format as an algorithm-tagged content checksum
`"sha256:<hex>"` over the snapshot file bytes). -/
def calculate_sha256 (content : List Nat) : String :=
  "sha256:" ++ bytesHex (sha256 content)

/-- One table descriptor of the snapshot manifest: qualified name and
row count (`TableInfo` in the fixtures subsystem). -/
structure TableInfo where
  name : String
  row_count : Nat

/-- The snapshot manifest sidecar record (the interchange JSON of the
spec: `fixture_id, version, schema_version, description, created_at,
iris_version, namespace, dat_file, checksum, tables`), as written by
`FixtureCreator.create_fixture` and re-read by the validator/loader.
The `namespace` JSON field is spelled `ns` here because `namespace` is a
Lean keyword. -/
structure FixtureManifest where
  fixture_id : String
  version : String
  schema_version : String
  description : String
  created_at : String
  iris_version : String
  ns : String
  dat_file : String
  checksum : String
  tables : List TableInfo

/-- The distinct fixture-validation failure kinds: the spec requires a
checksum mismatch to be reported as a distinct error kind from a missing
file. -/
inductive ValidationError where
  | fileNotFound (msg : String)
  | checksumMismatch (msg : String)

/-- Modelled from the spec: the checksum step of
`FixtureValidator.validate_fixture` (`iris_devtools/fixtures/validator.py`
is absent from the source tree; `DATFixtureLoader.validate_fixture` and
`FixtureCreator.calculate_checksum` delegate to it): recompute the
checksum over the snapshot file's current bytes -- optionally skippable
-- and fail with a checksum-mismatch error when it differs from the
manifest's stored checksum; a missing snapshot file is a distinct
failure.  `datContent` is the current content of the snapshot file,
`none` when the file is missing. -/
def validate_fixture (m : FixtureManifest) (datContent : Option (List Nat))
    (validate_checksum : Bool) : Except ValidationError Unit :=
  match datContent with
  | none => .error (.fileNotFound ("IRIS.DAT file not found: " ++ m.dat_file))
  | some content =>
    if validate_checksum then
      if calculate_sha256 content == m.checksum then .ok ()
      else .error (.checksumMismatch ("Checksum mismatch for " ++ m.dat_file ++
        ": manifest has " ++ m.checksum ++ " but the file hashes to " ++
        calculate_sha256 content))
    else .ok ()

/-- Single-byte mutation of a byte string: replace the byte at index `i`
by `b` (out-of-range indices leave the content unchanged). -/
def mutateByte (content : List Nat) (i b : Nat) : List Nat := content.set i b

/-- The result record of a fixture load (the `LoadResult` fields the
loader constructs: success flag, target namespace, tables verified). -/
structure LoadResult where
  success : Bool
  ns : String
  tables_loaded : List String

/-- Transliteration of step 3 of `DATFixtureLoader.load_fixture`
(`loader.py` lines 217-252): for each manifest-listed table in order,
run `SELECT COUNT(*)` against it; a failing query (`query t.name = none`)
raises `FixtureLoadError`, while a count differing from the manifest's
recorded `row_count` is tolerated -- the code's mismatch branch is
literally `pass` -- and the table is still appended to `tables_loaded`. -/
def verifyTables (query : String → Option Nat) :
    List TableInfo → Except String (List String)
  | [] => .ok []
  | t :: rest =>
    match query t.name with
    | none => .error ("Failed to verify table " ++ t.name)
    | some _ =>
      match verifyTables query rest with
      | .ok names => .ok (t.name :: names)
      | .error e => .error e

/-- The tail of `load_fixture` after a successful restore: run the table
verification; on success return `LoadResult(success=True, ...)` with the
verified tables; a table-verification failure propagates as
`FixtureLoadError`. -/
def loadFixtureVerify (m : FixtureManifest) (target_ns : String)
    (query : String → Option Nat) : Except String LoadResult :=
  match verifyTables query m.tables with
  | .error e => .error e
  | .ok names => .ok { success := true, ns := target_ns, tables_loaded := names }

/-- Outcome of the namespace export inside `create_fixture`: either the
backup succeeds, or it raises, leaving `filesLeft` behind in the
just-created output directory (e.g. a partially written IRIS.DAT). -/
inductive ExportOutcome where
  | ok
  | fail (filesLeft : List String) (err : String)

/-- Transliteration of the output-directory lifecycle of
`FixtureCreator.create_fixture` (`creator.py`): refuse an existing
output directory (`FileExistsError`); create it; export the namespace;
on export failure run the compensating cleanup `output_path.rmdir()`
inside `try/except: pass` -- `rmdir` removes the directory only when it
is empty and its failure is swallowed -- then re-raise.  The modelled
state is the output directory: `none` if absent, otherwise `some files`
with its contents. -/
def createFixtureFS (pre : Option (List String)) (outcome : ExportOutcome) :
    Except String Unit × Option (List String) :=
  match pre with
  | some files => (.error "Fixture directory already exists", some files)
  | none =>
    match outcome with
    | .ok => (.ok (), some ["IRIS.DAT", "manifest.json"])
    | .fail filesLeft err =>
      (.error err, if filesLeft.isEmpty then none else some filesLeft)

/-- Outcome of the re-export phase of `refresh_fixture`. -/
inductive RefreshOutcome where
  | ok (updated : FixtureManifest)
  | fail (err : String)

/-- Transliteration of the manifest backup/restore of
`FixtureCreator.refresh_fixture` (`creator.py` lines 481-500): write the
existing manifest `m0` to `manifest.json.backup`; re-export; on success
save the updated manifest; on failure restore `manifest.json` from the
backup -- which exists, having just been written -- then re-raise.  The
modelled state is the pair (content of `manifest.json`, content of
`manifest.json.backup`). -/
def refreshFixtureFS (m0 : FixtureManifest) (outcome : RefreshOutcome) :
    Except String FixtureManifest × (FixtureManifest × Option FixtureManifest) :=
  match outcome with
  | .ok updated => (.ok updated, (updated, some m0))
  | .fail err => (.error err, (m0, some m0))

/-- Modelled from the spec: the `ResourceThresholds` record
(`iris_devtools/containers/monitoring.py` is absent from the source
tree); the fields and their defaults are fixed by
`tests/contract/test_resource_monitoring_api.py` (FR-017, FR-018) and by
the `should_disable`/`should_enable` call sites in `performance.py`;
percentages are modelled as exact rationals. -/
structure ResourceThresholds where
  cpu_disable_percent : Rat := 90
  memory_disable_percent : Rat := 95
  cpu_enable_percent : Rat := 85
  memory_enable_percent : Rat := 90
  poll_interval_seconds : Rat := 5

/-- Check that `needle` starts the list `hay`. -/
def startsWithChars : List Char → List Char → Bool
  | [], _ => true
  | _ :: _, [] => false
  | n :: ns, h :: hs => n == h && startsWithChars ns hs

/-- Check that `needle` occurs contiguously somewhere in `hay`. -/
def containsChars (needle : List Char) : List Char → Bool
  | [] => needle.isEmpty
  | h :: t => startsWithChars needle (h :: t) || containsChars needle t

/-- String containment: `msg` mentions the word `needle`. -/
def mentionsWord (needle msg : String) : Bool :=
  containsChars needle.toList msg.toList

/-- The descriptive CPU hysteresis-violation message (the contract test
requires the message to mention thrashing and be detailed). -/
def cpuThresholdMsg : String :=
  "Invalid CPU thresholds: cpu_enable_percent must be strictly less than " ++
  "cpu_disable_percent (hysteresis). Equal or inverted thresholds risk " ++
  "thrashing: rapid oscillation between disabling and re-enabling " ++
  "monitoring under fluctuating load."

/-- The descriptive memory hysteresis-violation message. -/
def memoryThresholdMsg : String :=
  "Invalid memory thresholds: memory_enable_percent must be strictly less " ++
  "than memory_disable_percent (hysteresis). Equal or inverted thresholds " ++
  "risk thrashing: rapid oscillation between disabling and re-enabling " ++
  "monitoring under fluctuating load."

/-- Modelled from the spec: `ResourceThresholds.validate` ("the enable
threshold for a resource must be strictly less than its disable
threshold (hysteresis), or validation fails with a descriptive error");
raising `ValueError` is modelled as returning `.error` with the
message. -/
def ResourceThresholds.validate (t : ResourceThresholds) : Except String Unit :=
  if t.cpu_disable_percent ≤ t.cpu_enable_percent then .error cpuThresholdMsg
  else if t.memory_disable_percent ≤ t.memory_enable_percent then
    .error memoryThresholdMsg
  else .ok ()

/-- Transliteration of `FixtureCreator.get_connection` (`creator.py`
lines 502-519): `if self._connection is None: self._connection =
get_connection(self.connection_config)`, then `return self._connection`.
The state is the `_connection` slot; `fresh` is the connection the
underlying connection manager would create on this call; the boolean
records whether a new connection was created. -/
def FixtureCreator.get_connection (conn : Option Nat) (fresh : Nat) :
    Nat × Option Nat × Bool :=
  match conn with
  | some c => (c, some c, false)
  | none => (fresh, some fresh, true)

/-- Transliteration of `DATFixtureLoader.get_connection` (`loader.py`
lines 367-384): the same lazy-caching logic on the loader's
`_connection` slot. -/
def DATFixtureLoader.get_connection (conn : Option Nat) (fresh : Nat) :
    Nat × Option Nat × Bool :=
  match conn with
  | some c => (c, some c, false)
  | none => (fresh, some fresh, true)

/-- Abstract outcome of the uncached branch of
`IRISContainer.get_connection` (`iris_container.py` lines 197-252):
CallIn enablement plus the DBAPI-first / JDBC-fallback connect, possibly
followed by an automatic password reset and one retried connect; it
either produces a connection or raises. -/
inductive ConnAttempt where
  | ok (c : Nat)
  | resetRetry (c : Nat)
  | err (msg : String)

/-- Transliteration of `IRISContainer.get_connection`: the cached fast
path `if self._connection is not None: return self._connection` comes
first and performs no connection work at all; otherwise the connect
attempt runs and any obtained connection is stored in
`self._connection` before being returned, while a final failure
re-raises leaving the slot unset. -/
def IRISContainer.get_connection (conn : Option Nat) (attempt : ConnAttempt) :
    Except String Nat × Option Nat × Bool :=
  match conn with
  | some c => (.ok c, some c, false)
  | none =>
    match attempt with
    | .ok c => (.ok c, some c, true)
    | .resetRetry c => (.ok c, some c, true)
    | .err msg => (.error msg, none, true)

/-- C6: the exception dispatch of `reset_password` is total -- every
caught exception becomes a structured failure result (`success = false`)
rather than propagating -- and a command timeout (`"timeout"`) and a
missing docker executable (`"unknown"`, with a message naming Docker as
missing) are distinct error classifications. -/
theorem c6_never_raises (cn un np : String) (t : Nat) (e : ResetException) :
    (handleResetException cn un np t e).success = false ∧
    (handleResetException cn un np t ResetException.timeoutExpired).error_type
      = some "timeout" ∧
    (handleResetException cn un np t ResetException.fileNotFound).error_type
      = some "unknown" ∧
    (handleResetException cn un np t ResetException.timeoutExpired).error_type
      ≠ (handleResetException cn un np t ResetException.fileNotFound).error_type := by
  refine ⟨?_, rfl, rfl, by simp [handleResetException]⟩
  cases e <;> rfl

/-- Witness for C4 at concrete inputs: both a loop result and an
exception-handler result iterate into exactly two elements. -/
theorem c4_tuple_destructuring_witness :
    (runVerification cfgRetry envC1).1.iterElems.length = 2 ∧
    (handleResetException "iris_db" "_SYSTEM" "SYS" 30
      ResetException.timeoutExpired).iterElems.length = 2 :=
  ⟨(c4_tuple_destructuring cfgRetry envC1 "iris_db" "_SYSTEM" "SYS" 30
      ResetException.timeoutExpired).1.2,
   (c4_tuple_destructuring cfgRetry envC1 "iris_db" "_SYSTEM" "SYS" 30
      ResetException.timeoutExpired).2.2⟩

/-- Witness for C6 at concrete inputs: a missing docker executable is a
structured failure whose classification differs from the timeout one. -/
theorem c6_never_raises_witness :
    (handleResetException "iris_db" "_SYSTEM" "SYS" 30
      ResetException.fileNotFound).success = false ∧
    (handleResetException "iris_db" "_SYSTEM" "SYS" 30
      ResetException.timeoutExpired).error_type ≠
    (handleResetException "iris_db" "_SYSTEM" "SYS" 30
      ResetException.fileNotFound).error_type :=
  ⟨(c6_never_raises "iris_db" "_SYSTEM" "SYS" 30 ResetException.fileNotFound).1,
   (c6_never_raises "iris_db" "_SYSTEM" "SYS" 30 ResetException.fileNotFound).2.2.2⟩

/-- C5: fixture validation with checksum checking enabled succeeds if and
only if the SHA-256 checksum recomputed over the file's current content
equals the checksum stored in the manifest; consequently, for a manifest
recording the original content's checksum, mutating a single byte of the
snapshot file makes validation fail (with the distinct checksum-mismatch
error kind) whenever the mutated content's SHA-256 differs from the
original's. -/
theorem c5_checksum_validation :
    (∀ (m : FixtureManifest) (content : List Nat),
      validate_fixture m (some content) true = .ok () ↔
        calculate_sha256 content = m.checksum) ∧
    (∀ (m : FixtureManifest) (content : List Nat) (i b : Nat),
      m.checksum = calculate_sha256 content →
      calculate_sha256 (mutateByte content i b) ≠ calculate_sha256 content →
      validate_fixture m (some content) true = .ok () ∧
      ∃ msg, validate_fixture m (some (mutateByte content i b)) true =
        .error (.checksumMismatch msg)) := by
  constructor
  · intro m content
    by_cases h : calculate_sha256 content = m.checksum
    · simp [validate_fixture, h]
    · simp [validate_fixture, h]
  · intro m content i b hm hne
    have h1 : calculate_sha256 content = m.checksum := hm.symm
    have h2 : ¬ (calculate_sha256 (mutateByte content i b) = m.checksum) := by
      rw [hm]; exact hne
    refine ⟨by simp [validate_fixture, h1], ?_⟩
    simp [validate_fixture, h2]

/-- The concrete manifest of the C5 witness: it records the SHA-256 of
the three-byte content `[97, 98, 99]`. -/
def manifestC5 : FixtureManifest :=
  { fixture_id := "test-data", version := "1.0.0", schema_version := "1.0",
    description := "witness fixture", created_at := "2025-01-01T00:00:00Z",
    iris_version := "2024.1", ns := "USER", dat_file := "IRIS.DAT",
    checksum := calculate_sha256 [97, 98, 99], tables := [] }

set_option maxRecDepth 400000 in
/-- Witness for C5: validation accepts the unmutated content and rejects
the content with its first byte changed from 97 to 100 (the two SHA-256
digests are computed and compared concretely). -/
theorem c5_checksum_validation_witness :
    validate_fixture manifestC5 (some [97, 98, 99]) true = .ok () ∧
    ∃ msg, validate_fixture manifestC5 (some (mutateByte [97, 98, 99] 0 100)) true =
      .error (.checksumMismatch msg) :=
  c5_checksum_validation.2 manifestC5 [97, 98, 99] 0 100 rfl (by decide)

/-- Helper for C7: when every listed table is queryable, the loader's
table verification succeeds and loads every table in manifest order. -/
theorem verifyTables_all_queryable (query : String → Option Nat) :
    ∀ ts : List TableInfo, (∀ t ∈ ts, ∃ n, query t.name = some n) →
      verifyTables query ts = .ok (ts.map (fun t => t.name)) := by
  intro ts
  induction ts with
  | nil => intro _; rfl
  | cons t rest ih =>
    intro h
    obtain ⟨n, hn⟩ := h t (by simp)
    have hrest := ih (fun u hu => h u (by simp [hu]))
    simp [verifyTables, hn, hrest]

/-- Helper for C7: a single non-queryable listed table makes the loader's
table verification raise. -/
theorem verifyTables_fail (query : String → Option Nat) :
    ∀ (ts : List TableInfo) (t : TableInfo), t ∈ ts → query t.name = none →
      ∃ e, verifyTables query ts = .error e := by
  intro ts
  induction ts with
  | nil => intro t ht _; cases ht
  | cons u rest ih =>
    intro t ht hq
    rcases List.mem_cons.mp ht with heq | hmem
    · subst heq
      exact ⟨"Failed to verify table " ++ t.name, by simp [verifyTables, hq]⟩
    · cases hu : query u.name with
      | none => exact ⟨"Failed to verify table " ++ u.name, by simp [verifyTables, hu]⟩
      | some n =>
        obtain ⟨e, he⟩ := ih t hmem hq
        exact ⟨e, by simp [verifyTables, hu, he]⟩

/-- C7: after a successful restore, `load_fixture` verifies every
manifest-listed table with `COUNT(*)` in the target namespace: if every
listed table is queryable -- row counts may differ arbitrarily from the
manifest's recorded `row_count`, that is only a warning -- the load
returns success with all those tables in `tables_loaded`; if any listed
table is not queryable, it raises `FixtureLoadError`. -/
theorem c7_post_restore_verification (m : FixtureManifest) (target_ns : String)
    (query : String → Option Nat) :
    ((∀ t ∈ m.tables, ∃ n, query t.name = some n) →
      loadFixtureVerify m target_ns query =
        .ok { success := true, ns := target_ns,
              tables_loaded := m.tables.map (fun t => t.name) }) ∧
    (∀ t ∈ m.tables, query t.name = none →
      ∃ e, loadFixtureVerify m target_ns query = .error e) := by
  constructor
  · intro h
    have := verifyTables_all_queryable query m.tables h
    simp [loadFixtureVerify, this]
  · intro t ht hq
    obtain ⟨e, he⟩ := verifyTables_fail query m.tables t ht hq
    exact ⟨e, by simp [loadFixtureVerify, he]⟩

/-- The concrete manifest of the C7 witness: two tables with recorded
row counts 100 and 3. -/
def manifestC7 : FixtureManifest :=
  { fixture_id := "test-entities", version := "1.0.0", schema_version := "1.0",
    description := "witness fixture", created_at := "2025-01-01T00:00:00Z",
    iris_version := "2024.1", ns := "USER", dat_file := "IRIS.DAT",
    checksum := "sha256:0000",
    tables := [{ name := "SQLUser.Entities", row_count := 100 },
               { name := "SQLUser.Documents", row_count := 3 }] }

/-- The C7 witness query under which both tables answer `COUNT(*)`, the
first with a count (42) that disagrees with the manifest's 100. -/
def queryC7 : String → Option Nat :=
  fun t => if t == "SQLUser.Entities" then some 42
    else if t == "SQLUser.Documents" then some 3 else none

/-- The C7 witness query under which the second table is not
queryable. -/
def queryC7bad : String → Option Nat :=
  fun t => if t == "SQLUser.Entities" then some 100 else none

/-- Witness for C7: with both tables queryable (one with a mismatched
row count) the load succeeds listing both tables; with the second table
unqueryable it raises. -/
theorem c7_post_restore_verification_witness :
    loadFixtureVerify manifestC7 "USER_WORKER1" queryC7 =
      .ok { success := true, ns := "USER_WORKER1",
            tables_loaded := ["SQLUser.Entities", "SQLUser.Documents"] } ∧
    ∃ e, loadFixtureVerify manifestC7 "USER_WORKER1" queryC7bad = .error e :=
  ⟨(c7_post_restore_verification manifestC7 "USER_WORKER1" queryC7).1
      (fun t ht => by
        simp only [manifestC7, List.mem_cons, List.not_mem_nil, or_false] at ht
        rcases ht with h | h <;> subst h <;> exact ⟨_, rfl⟩),
   (c7_post_restore_verification manifestC7 "USER_WORKER1" queryC7bad).2
      { name := "SQLUser.Documents", row_count := 3 } (by simp [manifestC7]) rfl⟩

/-- Counterexample for C8 as stated: an export failure that leaves a
partially written `IRIS.DAT` inside the just-created output directory
propagates the error, yet the directory is NOT removed --
`output_path.rmdir()` only removes an empty directory and its failure is
swallowed by `except: pass`. -/
theorem c8_counterexample :
    (createFixtureFS none (ExportOutcome.fail ["IRIS.DAT"] "backup failed")).1 =
      .error "backup failed" ∧
    (createFixtureFS none (ExportOutcome.fail ["IRIS.DAT"] "backup failed")).2 =
      some ["IRIS.DAT"] :=
  ⟨rfl, rfl⟩

/-- C8 (amended): on an export failure inside `create_fixture` the error
propagates and the just-created output directory is removed exactly when
it is still empty (the `rmdir` cleanup ignores failure, so files left by
the failed export keep the directory in place); and on a failure inside
`refresh_fixture` after the manifest backup was made, the original
`manifest.json` content is restored from that backup before the error
propagates. -/
theorem c8_compensating_cleanup :
    (∀ (filesLeft : List String) (err : String),
      (createFixtureFS none (ExportOutcome.fail filesLeft err)).1 = .error err ∧
      (createFixtureFS none (ExportOutcome.fail filesLeft err)).2 =
        (if filesLeft.isEmpty then none else some filesLeft)) ∧
    (∀ (m0 : FixtureManifest) (err : String),
      (refreshFixtureFS m0 (RefreshOutcome.fail err)).1 = .error err ∧
      (refreshFixtureFS m0 (RefreshOutcome.fail err)).2.1 = m0) :=
  ⟨fun _ _ => ⟨rfl, rfl⟩, fun _ _ => ⟨rfl, rfl⟩⟩

/-- C9: a `ResourceThresholds` value passes validation exactly when each
resource's enable threshold is strictly below its disable threshold
(hysteresis); equal enable and disable thresholds -- for CPU or for
memory -- make `validate()` raise with a message mentioning thrashing
(oscillation) risk. -/
theorem c9_hysteresis_validation :
    (∀ t : ResourceThresholds, t.validate = .ok () ↔
      (t.cpu_enable_percent < t.cpu_disable_percent ∧
       t.memory_enable_percent < t.memory_disable_percent)) ∧
    (∀ t : ResourceThresholds, t.cpu_enable_percent = t.cpu_disable_percent →
      ∃ msg, t.validate = .error msg ∧ mentionsWord "thrashing" msg = true) ∧
    (∀ t : ResourceThresholds, t.memory_enable_percent = t.memory_disable_percent →
      ∃ msg, t.validate = .error msg ∧ mentionsWord "thrashing" msg = true) := by
  refine ⟨?_, ?_, ?_⟩
  · intro t
    unfold ResourceThresholds.validate
    split_ifs with h1 h2
    · simp only [reduceCtorEq, false_iff, not_and]
      intro ha _
      exact absurd h1 (not_le.mpr ha)
    · simp only [reduceCtorEq, false_iff, not_and]
      intro _ hb
      exact absurd h2 (not_le.mpr hb)
    · simp only [Except.ok.injEq, true_iff]
      exact ⟨not_le.mp h1, not_le.mp h2⟩
  · intro t heq
    have h1 : t.cpu_disable_percent ≤ t.cpu_enable_percent := heq.ge
    exact ⟨cpuThresholdMsg, by simp [ResourceThresholds.validate, h1], by decide⟩
  · intro t heq
    by_cases h1 : t.cpu_disable_percent ≤ t.cpu_enable_percent
    · exact ⟨cpuThresholdMsg, by simp [ResourceThresholds.validate, h1], by decide⟩
    · have h2 : t.memory_disable_percent ≤ t.memory_enable_percent := heq.ge
      exact ⟨memoryThresholdMsg,
        by simp [ResourceThresholds.validate, h1, h2], by decide⟩

/-- The concrete thresholds of the C9 witness: CPU enable equals CPU
disable (no hysteresis), memory thresholds valid -- the contract test's
scenario. -/
def thresholdsC9 : ResourceThresholds :=
  { cpu_disable_percent := 90, memory_disable_percent := 95,
    cpu_enable_percent := 90, memory_enable_percent := 90,
    poll_interval_seconds := 5 }

/-- Witness for C9: equal CPU thresholds are rejected with a message
mentioning thrashing. -/
theorem c9_hysteresis_validation_witness :
    ∃ msg, thresholdsC9.validate = .error msg ∧
      mentionsWord "thrashing" msg = true :=
  c9_hysteresis_validation.2.1 thresholdsC9 rfl

/-- C10: on each of `FixtureCreator`, `DATFixtureLoader` and
`IRISContainer`, `get_connection` caches: a call finding the
`_connection` slot filled returns the cached connection unchanged and
creates no new connection; a second call after any first call returns
the first call's connection without creating a new one; and whatever
connection `IRISContainer.get_connection` successfully returns is what
the slot then holds. -/
theorem c10_connection_caching :
    (∀ (c fresh : Nat),
      FixtureCreator.get_connection (some c) fresh = (c, some c, false)) ∧
    (∀ (s : Option Nat) (f1 f2 : Nat),
      FixtureCreator.get_connection (FixtureCreator.get_connection s f1).2.1 f2 =
        ((FixtureCreator.get_connection s f1).1,
         (FixtureCreator.get_connection s f1).2.1, false)) ∧
    (∀ (c fresh : Nat),
      DATFixtureLoader.get_connection (some c) fresh = (c, some c, false)) ∧
    (∀ (s : Option Nat) (f1 f2 : Nat),
      DATFixtureLoader.get_connection (DATFixtureLoader.get_connection s f1).2.1 f2 =
        ((DATFixtureLoader.get_connection s f1).1,
         (DATFixtureLoader.get_connection s f1).2.1, false)) ∧
    (∀ (c : Nat) (a : ConnAttempt),
      IRISContainer.get_connection (some c) a = (.ok c, some c, false)) ∧
    (∀ (s : Option Nat) (a : ConnAttempt) (c : Nat) (s' : Option Nat) (b : Bool),
      IRISContainer.get_connection s a = (.ok c, s', b) → s' = some c) := by
  refine ⟨fun _ _ => rfl, ?_, fun _ _ => rfl, ?_, fun _ _ => rfl, ?_⟩
  · intro s f1 f2
    cases s <;> rfl
  · intro s f1 f2
    cases s <;> rfl
  · intro s a c s' b h
    cases s with
    | some c0 =>
      simp only [IRISContainer.get_connection, Prod.mk.injEq, Except.ok.injEq] at h
      obtain ⟨hc, hs, -⟩ := h
      rw [← hs, hc]
    | none =>
      cases a with
      | ok c1 =>
        simp only [IRISContainer.get_connection, Prod.mk.injEq, Except.ok.injEq] at h
        obtain ⟨hc, hs, -⟩ := h
        rw [← hs, hc]
      | resetRetry c1 =>
        simp only [IRISContainer.get_connection, Prod.mk.injEq, Except.ok.injEq] at h
        obtain ⟨hc, hs, -⟩ := h
        rw [← hs, hc]
      | err msg =>
        simp [IRISContainer.get_connection] at h

/-- Witness for C10: the cached paths of all three classes at connection
id 7, and the container's uncached success at id 9 leaving the slot
holding 9. -/
theorem c10_connection_caching_witness :
    FixtureCreator.get_connection (some 7) 99 = (7, some 7, false) ∧
    DATFixtureLoader.get_connection (some 7) 99 = (7, some 7, false) ∧
    IRISContainer.get_connection (some 7) (ConnAttempt.ok 99) =
      (.ok 7, some 7, false) ∧
    (IRISContainer.get_connection none (ConnAttempt.ok 9)).2.1 = some 9 :=
  ⟨c10_connection_caching.1 7 99,
   c10_connection_caching.2.2.1 7 99,
   c10_connection_caching.2.2.2.2.1 7 (ConnAttempt.ok 99),
   c10_connection_caching.2.2.2.2.2 none (ConnAttempt.ok 9) 9 (some 9) true rfl⟩

end IrisDev
